import Mathlib

/-!
Shallow embedding of the agent-health / liveness-recovery loop of the
Tmux-Orchestrator repository, centred on src/hub_orchestrator.py
(class HubOrchestrator) with the approval-dialog detector of
src/claude_agent_manager.py (ClaudeAgentManager.monitor_agent_approvals).

Side-effecting calls (requests.put to the state store, tmux subprocess
invocations, the send-claude-message.sh helper) are modelled as an
explicit list of Action values emitted by each function; the external
environment observed by a tick (the project list returned by the API,
the set of live tmux sessions, the pane text each capture-pane call
returns, injected failures) is a World record threaded explicitly.
-/

namespace TmuxOrch

/-- Observable side effects of the orchestrator.  putStatus is a
requests.put of a status field to /api/projects/id; killSession,
createSession and sendKeys are the corresponding tmux subprocess calls
(sendKeys lists the key arguments of one tmux send-keys invocation);
sendMessage is a ./send-claude-message.sh invocation; logError records
a caught exception or a failed fetch (logger.error). -/
inductive Action where
  | putStatus (id : Nat) (status : String)
  | killSession (name : String)
  | createSession (name : String) (cwd : String)
  | sendKeys (target : String) (keys : List String)
  | sendMessage (target : String)
  | logError (msg : String)
deriving Repr, DecidableEq

/-- A project record as the orchestrator reads it from the state store
(src/api/main.py keeps id, name, project_type, project_path, status
among other fields; only these are read by hub_orchestrator.py). -/
structure Project where
  id : Nat
  name : String
  project_type : String
  project_path : String
  status : String
deriving Repr, DecidableEq

/-- The environment one orchestration tick observes.  projects is the
body of GET /api/projects; fetchOk models its status code being 200;
sessions are the names tmux list-sessions reports and listOk that
call succeeding; captures maps a session name to the text its
capture-pane call returns, an absent key modelling a failed capture
(non-zero returncode or timeout); failing injects an exception raised
while processing that session (caught by check_agent_activity);
projectRaises injects an exception raised at the start of
create_and_assign_agent for that project id (caught there); minute is
datetime.now().minute, read by check_agent_productivity; paths lists
the filesystem paths os.path.exists reports as present, read by
deploy_project_managers; pmCreateFails lists the project-manager
session names whose tmux new-session call fails. -/
structure World where
  projects : List Project
  fetchOk : Bool
  sessions : List String
  listOk : Bool
  captures : List (String × String)
  failing : List String
  projectRaises : List Nat
  minute : Nat
  paths : List String
  pmCreateFails : List String
deriving Repr, DecidableEq

/-- Python substring test needle in hay. -/
def strContains (hay needle : String) : Bool :=
  (List.range (hay.data.length + 1)).any (fun i => needle.data.isPrefixOf (hay.data.drop i))

/-- Python str.lower, for the ASCII marker strings involved. -/
def pyLower (s : String) : String := ⟨s.data.map Char.toLower⟩

/-- Python str.replace for a single-character pattern, as a character
map over the text. -/
def mapChars (f : Char → Char) (s : String) : String := ⟨s.data.map f⟩

/-- Python str.startswith. -/
def strStartsWith (s pre : String) : Bool := pre.data.isPrefixOf s.data

/-- Result of a tmux capture-pane call for a session, none when the
call fails. -/
def lookupCapture (w : World) (s : String) : Option String :=
  (w.captures.find? (fun kv => kv.1 == s)).map (fun kv => kv.2)

/-- Session naming convention used throughout hub_orchestrator.py:
"proj-" followed by the project name lowercased with spaces replaced
by dashes (replace of a single-character pattern is a character map). -/
def sessionNameOf (p : Project) : String :=
  "proj-" ++ mapChars (fun c => if c = ' ' then '-' else c) (pyLower p.name)

/-- The shell command create_and_assign_agent sends to start the agent
script (line 286): underscores substituted for dashes in the name. -/
def startCmd (sname : String) : String :=
  "bash autonomous_agent_" ++ mapChars (fun c => if c = '-' then '_' else c) sname ++ ".sh"

/-- Dead-marker test of the first monitor_agent_health definition
(hub_orchestrator.py lines 105-107): login, or authentication, or
both error and failed, each sought in the lowercased capture.  The
spec calls these the dead-marker table (authentication failures and
shell-level error banners). -/
def deadMarkerHit (output : String) : Bool :=
  strContains (pyLower output) "login" || strContains (pyLower output) "authentication"
    || (strContains (pyLower output) "error" && strContains (pyLower output) "failed")

/-- The liveness classification the capture branch of the first
monitor_agent_health definition performs: a dead-marker hit takes the
restart branch (the classification the spec names Dead), anything
else the healthy branch.  The function reads only the capture, so the
classification is independent of any prior per-session state (the
code keeps none). -/
inductive Liveness where
  | dead
  | healthy
deriving Repr, DecidableEq

def classify_capture (output : String) : Liveness :=
  if deadMarkerHit output then Liveness.dead else Liveness.healthy

/-- restart_stuck_agent (lines 124-138): kill the tmux session, then
reset the project status to pending via the state store. -/
def restart_stuck_agent (session_name : String) (p : Project) : List Action :=
  [Action.killSession session_name, Action.putStatus p.id "pending"]

/-- Body of the per-project loop of the first monitor_agent_health
definition (lines 81-119): a missing session resets the project to
pending; a successful capture with a dead-marker hit triggers
restart_stuck_agent; otherwise a starting project is promoted to
running; a failed capture is caught and ignored. -/
def monitorProject_l70 (w : World) (p : Project) : List Action :=
  if w.sessions.contains (sessionNameOf p) then
    match lookupCapture w (sessionNameOf p) with
    | none => []
    | some output =>
      if deadMarkerHit output then
        restart_stuck_agent (sessionNameOf p) p
      else if p.status == "starting" then
        [Action.putStatus p.id "running"]
      else []
  else
    [Action.putStatus p.id "pending"]

/-- First monitor_agent_health definition (lines 70-122): fetch the
project list (a non-200 response returns with no action), keep the
starting and running projects, process each. -/
def monitor_agent_health_l70 (w : World) : List Action :=
  if w.fetchOk then
    ((w.projects.filter (fun p => p.status == "starting" || p.status == "running")).map
      (monitorProject_l70 w)).flatten
  else []

/-- stuck_indicators of check_agent_activity (lines 549-559). -/
def stuck_indicators : List String :=
  ["Do you want to proceed?",
   "❯ 1. Yes",
   "❯ 2. Yes, and don\x27t ask again",
   "❯ 3. No, and tell Claude what to do",
   "Continue?",
   "Press any key to continue",
   "[Y/n]",
   "Waiting for input",
   "Type \x27exit\x27 to quit"]

/-- is_stuck of check_agent_activity (line 561): any indicator occurs
in the capture. -/
def isStuckCapture (output : String) : Bool :=
  stuck_indicators.any (fun ind => strContains output ind)

/-- unstick_agent (lines 573-618): answer the recognised prompt (1 for
a proceed dialog, y for a [Y/n] or Continue? prompt, Enter for a
press-any-key prompt), then always send the motivational message via
send-claude-message.sh. -/
def unstick_agent (session_name : String) (terminal_output : String) : List Action :=
  (if strContains terminal_output "Do you want to proceed?"
      || strContains terminal_output "❯ 1. Yes" then
    [Action.sendKeys (session_name ++ ":0") ["1", "Enter"]]
  else if strContains terminal_output "[Y/n]" || strContains terminal_output "Continue?" then
    [Action.sendKeys (session_name ++ ":0") ["y", "Enter"]]
  else if strContains terminal_output "Press any key to continue" then
    [Action.sendKeys (session_name ++ ":0") ["Enter"]]
  else [])
  ++ [Action.sendMessage (session_name ++ ":0")]

/-- check_agent_productivity (lines 620-646): every tick whose wall
clock minute is a multiple of 10 sends an encouragement message. -/
def check_agent_productivity (session_name : String) (minute : Nat) : List Action :=
  if minute % 10 = 0 then [Action.sendMessage (session_name ++ ":0")] else []

/-- check_agent_activity without its outer try/except (lines 538-568):
a failed capture does nothing; a stuck capture goes to unstick_agent,
anything else to check_agent_productivity. -/
def check_agent_activity_core (w : World) (session_name : String) : List Action :=
  match lookupCapture w session_name with
  | none => []
  | some output =>
    if isStuckCapture output then unstick_agent session_name output
    else check_agent_productivity session_name w.minute

/-- check_agent_activity (lines 535-571): the whole body is wrapped in
try/except, so an exception raised while processing this session
(injected through World.failing) is caught and logged, affecting no
other session. -/
def check_agent_activity (w : World) (session_name : String) : List Action :=
  if w.failing.contains session_name then [Action.logError session_name]
  else check_agent_activity_core w session_name

/-- Second monitor_agent_health definition (lines 515-533): list tmux
sessions (a failed call returns with no action), keep the names
starting with proj-, run check_agent_activity on each.  It reads
nothing from the state store and issues no state-store write. -/
def monitor_agent_health_l515 (w : World) : List Action :=
  if w.listOk then
    ((w.sessions.filter (fun s => strStartsWith s "proj-")).map (check_agent_activity w)).flatten
  else []

/-- The monitor_agent_health method actually bound on the class: the
class body defines the name twice (lines 70 and 515) and the Python
class dictionary keeps the later definition, so every call site
(run_continuous_orchestration line 59, orchestration_cycle line 220)
invokes the line-515 body. -/
def monitor_agent_health : World → List Action := monitor_agent_health_l515

/-- Ids of the projects the assignment phase acts on (line 240). -/
def pendingIds (w : World) : List Nat :=
  (w.projects.filter (fun p => p.status == "pending")).map (fun p => p.id)

/-- create_and_assign_agent (lines 254-305): when the session is
missing, create it and start the agent script in it; in every
non-raising run, put status starting for the project.  An injected
exception (World.projectRaises) is caught by the except clause of the
function itself and only logged. -/
def create_and_assign_agent (w : World) (p : Project) : List Action :=
  if w.projectRaises.contains p.id then [Action.logError p.name]
  else
    (if w.sessions.contains (sessionNameOf p) then []
     else
       [Action.createSession (sessionNameOf p) p.project_path,
        Action.sendKeys (sessionNameOf p ++ ":0") [startCmd (sessionNameOf p), "Enter"]])
    ++ [Action.putStatus p.id "starting"]

/-- assign_agents_to_pending_projects (lines 230-252): fetch the
project list (a non-200 response is logged and ends the phase), then
run create_and_assign_agent on every pending project. -/
def assign_agents_to_pending_projects (w : World) : List Action :=
  if w.fetchOk then
    ((w.projects.filter (fun p => p.status == "pending")).map (create_and_assign_agent w)).flatten
  else [Action.logError "fetch"]

/-- One iteration of the run_continuous_orchestration loop body (lines
52-62): the assignment phase followed by the (later-bound) health
monitor phase. -/
def orchestration_tick (w : World) : List Action :=
  assign_agents_to_pending_projects w ++ monitor_agent_health w

/-- Python str.endswith. -/
def strEndsWith (s suf : String) : Bool := suf.data.isSuffixOf s.data

/-- The stdout of a tmux list-sessions call printing one session name
per line. -/
def joinLines : List String → String
  | [] => ""
  | [s] => s
  | s :: rest => s ++ "\n" ++ joinLines rest

/-- Name of the project-manager session deploy_project_managers pairs
with a project (line 148). -/
def pmSessionNameOf (p : Project) : String :=
  "pm-" ++ mapChars (fun c => if c = ' ' then '-' else c) (pyLower p.name)

/-- The hard-coded test-projects path deploy_project_managers checks
with os.path.exists (line 155). -/
def pmProjectPath (p : Project) : String :=
  "/home/james/test-projects/" ++ mapChars (fun c => if c = ' ' then '-' else c) (pyLower p.name)

/-- Body of the per-project loop of deploy_project_managers (lines
145-174): when the pm- session is missing and the test-projects path
exists, create the project-manager session; on success update the
project status to managed, on failure only log (the trace records
effects, so a failed creation contributes no session action). -/
def deployProject (w : World) (p : Project) : List Action :=
  if w.sessions.contains (pmSessionNameOf p) then []
  else if w.paths.contains (pmProjectPath p) then
    if w.pmCreateFails.contains (pmSessionNameOf p) then
      [Action.logError (pmSessionNameOf p)]
    else
      [Action.createSession (pmSessionNameOf p) (pmProjectPath p),
       Action.putStatus p.id "managed"]
  else []

/-- deploy_project_managers (lines 140-177): obtain the project list
and run the per-project deployment on every running or managed
project.  The source calls self.get_projects, a method the class
never defines; the call names the GET /api/projects operation served
by src/api/main.py line 47, and at runtime the missing attribute
would raise and be caught by the except clause of this function,
logging only.  The definition models the named fetch, gated like the
other project-list reads; a failed fetch is the logged exception. -/
def deploy_project_managers (w : World) : List Action :=
  if w.fetchOk then
    ((w.projects.filter (fun p => p.status == "running" || p.status == "managed")).map
      (deployProject w)).flatten
  else [Action.logError "get_projects"]

/-- enable_auto_approval (lines 472-493): if the session name occurs
in the stdout of tmux list-sessions (an empty stdout when the call
fails), send the keys 2 and Enter to its pane. -/
def enable_auto_approval (w : World) (session_name : String) : List Action :=
  if strContains (if w.listOk then joinLines w.sessions else "") session_name then
    [Action.sendKeys (session_name ++ ":0") ["2", "Enter"]]
  else []

/-- enable_auto_approval_for_all_sessions (lines 495-513): list the
tmux sessions (a failed call returns with no action) and run
enable_auto_approval on every name ending in -dev. -/
def enable_auto_approval_for_all_sessions (w : World) : List Action :=
  if w.listOk then
    ((w.sessions.filter (fun s => strEndsWith s "-dev")).map (enable_auto_approval w)).flatten
  else []

/-- monitor_project_manager_health (lines 179-204): reads pm- session
captures and logs their state; it performs no state-store write, no
session mutation and no send, so it contributes no action. -/
def monitor_project_manager_health (_ : World) : List Action := []

/-- update_system_health (lines 648-659): counts proj- sessions and
logs the number; no modelled side effect. -/
def update_system_health (_ : World) : List Action := []

/-- The public orchestration_cycle method (lines 206-228): assignment,
project-manager deployment, auto-approval for -dev sessions, the
(later-bound) health monitor, project-manager health and the system
health update, in order. -/
def orchestration_cycle (w : World) : List Action :=
  assign_agents_to_pending_projects w ++ deploy_project_managers w ++
    enable_auto_approval_for_all_sessions w ++ monitor_agent_health w ++
      monitor_project_manager_health w ++ update_system_health w

/-- approval_patterns of ClaudeAgentManager.monitor_agent_approvals
(claude_agent_manager.py lines 319-324).  The second entry is the
mojibake two-character sequence U+00E2 U+00AF actually present in the
source file, not the prompt arrow U+276F. -/
def approval_patterns : List String :=
  ["Do you want to proceed?",
   "â¯ 1. Yes",
   "2. Yes, and don\x27t ask again",
   "3. No, and tell Claude what to do differently"]

/-- The firing condition of monitor_agent_approvals (line 326): all of
the first two approval_patterns occur in the captured content.  When
it fires, the function sends the keys 2 and Enter (lines 341-344); it
keeps no record of previous sends, so the decision is a function of
the capture alone. -/
def approval_dialog_detected (content : String) : Bool :=
  strContains content "Do you want to proceed?"
    && strContains content "â¯ 1. Yes"

/-- Key arguments of the tmux send-keys call monitor_agent_approvals
issues when the dialog is detected (lines 341-344). -/
def monitor_agent_approvals (session_name window_name : String) (content : String) :
    List Action :=
  if approval_dialog_detected content then
    [Action.sendKeys (session_name ++ ":" ++ window_name) ["2", "Enter"]]
  else []

/-- self.max_retry_attempts, set in HubOrchestrator.__init__ (line 34)
and read nowhere else in the file. -/
def max_retry_attempts : Nat := 3

/-! ### Applying emitted actions back to the observed world -/

def isPutStatus : Action → Bool
  | Action.putStatus _ _ => true
  | _ => false

def isCreate : Action → Bool
  | Action.createSession _ _ => true
  | _ => false

def isKill : Action → Bool
  | Action.killSession _ => true
  | _ => false

/-- The status values carried by the putStatus actions of a trace. -/
def statusesWritten (acts : List Action) : List String :=
  acts.filterMap (fun a => match a with
    | Action.putStatus _ st => some st
    | _ => none)

/-- An action that touches neither the state store nor the session
pool: not a status write, not a session creation, not a kill. -/
def safeAction (a : Action) : Bool := !isPutStatus a && !isCreate a && !isKill a

/-- Every status carried by a putStatus action satisfies P; other
actions are unconstrained. -/
def statusOkA (P : String → Bool) (a : Action) : Bool :=
  match a with
  | Action.putStatus _ st => P st
  | _ => true

/-- Effect of one action on the state store (the PUT handler of
src/api/main.py lines 75-88 overwrites the status field of the
addressed record). -/
def applyProject (ps : List Project) (a : Action) : List Project :=
  match a with
  | Action.putStatus pid st => ps.map (fun p => if p.id = pid then { p with status := st } else p)
  | _ => ps

/-- Effect of one action on the set of live tmux sessions. -/
def applySession (ss : List String) (a : Action) : List String :=
  match a with
  | Action.killSession n => ss.filter (fun s => s != n)
  | Action.createSession n _ => n :: ss
  | _ => ss

/-- World after a trace of actions has executed (captures, clocks and
injected failures unchanged). -/
def stepWorld (w : World) (acts : List Action) : World :=
  { w with
    projects := acts.foldl applyProject w.projects
    sessions := acts.foldl applySession w.sessions }

/-- World after one tick of the run_continuous_orchestration loop. -/
def tickStep (w : World) : World := stepWorld w (orchestration_tick w)

/-- One dead-session recovery round as it unfolds across consecutive
ticks: the (first-definition) health monitor restarts the dead agent,
resetting the project to pending; the assignment phase of the
following tick then recreates the session and sets status starting. -/
def recoverRound (w : World) : World :=
  let w1 := stepWorld w (monitor_agent_health_l70 w)
  stepWorld w1 (assign_agents_to_pending_projects w1)

/-- Actions emitted across n recovery rounds. -/
def roundsTrace : Nat → World → List Action
  | 0, _ => []
  | n + 1, w =>
    let t1 := monitor_agent_health_l70 w
    let w1 := stepWorld w t1
    let t2 := assign_agents_to_pending_projects w1
    t1 ++ t2 ++ roundsTrace n (stepWorld w1 t2)

/-- World reached from w after restart_stuck_agent has run for project
p and the assignment phase of the following tick has run: the
round-trip the spec describes as Dead followed by Restart. -/
def recoverSteps (w : World) (p : Project) : World :=
  stepWorld (stepWorld w (restart_stuck_agent (sessionNameOf p) p))
    (assign_agents_to_pending_projects (stepWorld w (restart_stuck_agent (sessionNameOf p) p)))

/-! ### Concrete environments used by counterexamples and witnesses -/

/-- A project in status starting whose session shows ordinary healthy
output. -/
def alpha : Project := ⟨1, "alpha", "python", "/p/alpha", "starting"⟩

def wAlpha : World :=
  ⟨[alpha], true, ["proj-alpha"], true, [("proj-alpha", "build passing")], [], [], 1, [], []⟩

/-- The capture of the scenario in the claims: a confirmation dialog
with the proceed question and the Yes-and-do-not-ask-again option. -/
def capConfirm : String := "Do you want to proceed?\n2. Yes, and don\x27t ask again"

/-- A session currently showing capConfirm; no pending projects. -/
def wStuck : World :=
  ⟨[], true, ["proj-eta"], true, [("proj-eta", capConfirm)], [], [], 1, [], []⟩

/-- Same environment but the project-list fetch fails. -/
def wFetchFail : World :=
  ⟨[⟨6, "zeta", "python", "/p/zeta", "pending"⟩], false, ["proj-eta"], true,
   [("proj-eta", capConfirm)], [], [], 1, [], []⟩

/-- A running project whose session exists but captures empty text. -/
def beta : Project := ⟨2, "beta", "python", "/p/beta", "running"⟩

def wEmpty : World :=
  ⟨[beta], true, ["proj-beta"], true, [("proj-beta", "")], [], [], 7, [], []⟩

/-- A running project whose session is missing. -/
def gammaP : Project := ⟨3, "gamma", "nodejs", "/p/gamma", "running"⟩

def wMissing : World := ⟨[gammaP], true, [], true, [], [], [], 1, [], []⟩

/-- A running project whose session shows a dead-marker banner. -/
def delta : Project := ⟨4, "delta", "python", "/p/delta", "running"⟩

def wDead : World :=
  ⟨[delta], true, ["proj-delta"], true, [("proj-delta", "error: build failed")], [], [], 1, [], []⟩

/-- A running project whose session shows an authentication prompt. -/
def eps : Project := ⟨5, "epsilon", "python", "/p/eps", "running"⟩

def wEps : World :=
  ⟨[eps], true, ["proj-epsilon"], true, [("proj-epsilon", "login required")], [], [], 1, [], []⟩

/-- One pending project, nothing else. -/
def theta : Project := ⟨7, "theta", "python", "/p/theta", "pending"⟩

def wPend : World := ⟨[theta], true, [], true, [], [], [], 1, [], []⟩

/-! ### Helper lemmas -/

theorem all_flatten_map_mem {α β : Type} (P : β → Bool) (f : α → List β) (l : List α)
    (h : ∀ a ∈ l, (f a).all P = true) : ((l.map f).flatten).all P = true := by
  induction l with
  | nil => rfl
  | cons a t ih =>
    simp only [List.map_cons, List.flatten_cons, List.all_append, Bool.and_eq_true]
    exact ⟨h a (List.mem_cons_self a t), ih (fun x hx => h x (List.mem_cons_of_mem a hx))⟩

theorem all_weaken {α : Type} (P Q : α → Bool) (l : List α)
    (h : l.all P = true) (himp : ∀ a, P a = true → Q a = true) : l.all Q = true := by
  rw [List.all_eq_true] at h ⊢
  exact fun a ha => himp a (h a ha)

theorem check_agent_activity_safe (w : World) (s : String) :
    (check_agent_activity w s).all safeAction = true := by
  unfold check_agent_activity check_agent_activity_core unstick_agent check_agent_productivity
  repeat' split
  all_goals rfl

theorem monitor_l515_safe (w : World) :
    (monitor_agent_health_l515 w).all safeAction = true := by
  unfold monitor_agent_health_l515
  split
  · exact all_flatten_map_mem _ _ _ (fun s _ => check_agent_activity_safe w s)
  · rfl

theorem monitorProject_l70_statusOk (w : World) (p : Project) :
    (monitorProject_l70 w p).all
      (statusOkA (fun st => st == "pending" || st == "running")) = true := by
  unfold monitorProject_l70 restart_stuck_agent
  repeat' split
  all_goals rfl

theorem monitor_l70_statusOk (w : World) :
    (monitor_agent_health_l70 w).all
      (statusOkA (fun st => st == "pending" || st == "running")) = true := by
  unfold monitor_agent_health_l70
  split
  · exact all_flatten_map_mem _ _ _ (fun p _ => monitorProject_l70_statusOk w p)
  · rfl

theorem assign_statusOk (w : World) :
    (assign_agents_to_pending_projects w).all
      (statusOkA (fun st => st == "starting")) = true := by
  unfold assign_agents_to_pending_projects
  split
  · refine all_flatten_map_mem _ _ _ (fun p _ => ?_)
    unfold create_and_assign_agent
    repeat' split
    all_goals rfl
  · rfl

theorem deployProject_statusOk (w : World) (p : Project) :
    (deployProject w p).all (statusOkA (fun st => st == "managed")) = true := by
  unfold deployProject
  repeat' split
  all_goals rfl

theorem deploy_statusOk (w : World) :
    (deploy_project_managers w).all (statusOkA (fun st => st == "managed")) = true := by
  unfold deploy_project_managers
  split
  · exact all_flatten_map_mem _ _ _ (fun p _ => deployProject_statusOk w p)
  · rfl

theorem enable_auto_approval_safe (w : World) (s : String) :
    (enable_auto_approval w s).all safeAction = true := by
  unfold enable_auto_approval
  repeat' split
  all_goals rfl

theorem enable_all_safe (w : World) :
    (enable_auto_approval_for_all_sessions w).all safeAction = true := by
  unfold enable_auto_approval_for_all_sessions
  split
  · exact all_flatten_map_mem _ _ _ (fun s _ => enable_auto_approval_safe w s)
  · rfl

theorem statusesWritten_all (P : String → Bool) (acts : List Action) :
    (statusesWritten acts).all P = acts.all (statusOkA P) := by
  induction acts with
  | nil => rfl
  | cons a t ih =>
    cases a with
    | putStatus pid st =>
      show (st :: statusesWritten t).all P = _
      rw [List.all_cons, List.all_cons, ih]
      rfl
    | killSession n =>
      show (statusesWritten t).all P = _
      rw [List.all_cons, ih]
      rfl
    | createSession n cwd =>
      show (statusesWritten t).all P = _
      rw [List.all_cons, ih]
      rfl
    | sendKeys tg ks =>
      show (statusesWritten t).all P = _
      rw [List.all_cons, ih]
      rfl
    | sendMessage tg =>
      show (statusesWritten t).all P = _
      rw [List.all_cons, ih]
      rfl
    | logError m =>
      show (statusesWritten t).all P = _
      rw [List.all_cons, ih]
      rfl

theorem create_assign_mem (w : World) (p : Project) (a : Action)
    (ha : a ∈ create_and_assign_agent w p) :
    a = Action.putStatus p.id "starting" ∨ isPutStatus a = false := by
  unfold create_and_assign_agent at ha
  split at ha
  · simp at ha
    subst ha
    right
    rfl
  · rw [List.mem_append] at ha
    rcases ha with h | h
    · split at h
      · simp at h
      · simp at h
        rcases h with h | h <;> (subst h; right; rfl)
    · simp at h
      subst h
      left
      rfl

theorem assign_put_mem (w : World) (a : Action) (ha : a ∈ assign_agents_to_pending_projects w)
    (pid : Nat) (st : String) (heq : a = Action.putStatus pid st) :
    st = "starting" ∧ pid ∈ pendingIds w := by
  unfold assign_agents_to_pending_projects at ha
  split at ha
  · rw [List.mem_flatten] at ha
    obtain ⟨l, hl, hal⟩ := ha
    rw [List.mem_map] at hl
    obtain ⟨p, hp, rfl⟩ := hl
    rcases create_assign_mem w p a hal with h | h
    · subst heq
      rw [Action.putStatus.injEq] at h
      obtain ⟨h1, h2⟩ := h
      exact ⟨h2, h1 ▸ List.mem_map.mpr ⟨p, hp, rfl⟩⟩
    · subst heq
      simp [isPutStatus] at h
  · simp at ha
    subst ha
    simp at heq

theorem contains_filter_ne (l : List String) (n : String) :
    (l.filter (fun s => s != n)).contains n = false := by
  induction l with
  | nil => rfl
  | cons a t ih =>
    by_cases h : a = n
    · simp [List.filter_cons, h, ih]
    · simp [List.filter_cons, bne, h, List.contains_cons, ih]
      exact Ne.symm h

theorem sessionNameOf_with_status (p : Project) (st : String) :
    sessionNameOf { p with status := st } = sessionNameOf p := rfl

theorem contains_of_mem {l : List Nat} {x : Nat} (h : x ∈ l) : l.contains x = true := by
  induction l with
  | nil => cases h
  | cons a t ih =>
    rcases List.mem_cons.mp h with h | h
    · subst h
      rw [List.contains_cons, beq_self_eq_true, Bool.true_or]
    · rw [List.contains_cons, ih h, Bool.or_true]

theorem roundsTrace_statusOk (n : Nat) : ∀ w : World,
    (roundsTrace n w).all
      (statusOkA (fun st => st == "pending" || st == "starting" || st == "running")) = true := by
  induction n with
  | zero => intro w; rfl
  | succ n ih =>
    intro w
    unfold roundsTrace
    simp only [List.all_append, Bool.and_eq_true]
    refine ⟨⟨?_, ?_⟩, ih _⟩
    · refine all_weaken _ _ _ (monitor_l70_statusOk w) (fun a h => ?_)
      cases a <;> simp_all [statusOkA, Bool.or_eq_true]
      tauto
    · refine all_weaken _ _ _ (assign_statusOk _) (fun a h => ?_)
      cases a <;> simp_all [statusOkA, Bool.or_eq_true]

/-! ### Claim theorems -/

/-- Claim C1, a divergence between the code and its evident intent: the
claim says the orchestration cycle updates a Starting project to
Running when it observes the first healthy capture of its session.
That update exists only in the first monitor_agent_health definition
(lines 111-116), which the second definition of the same name shadows
in the class body, so the cycle never performs it: on a world holding
a starting project whose live session shows healthy output, one full
tick of the loop emits no action at all, while the shadowed first
definition applied to the same world would have emitted the running
update. -/
theorem c1_divergence :
    alpha.status = "starting" ∧
    deadMarkerHit "build passing" = false ∧
    isStuckCapture "build passing" = false ∧
    orchestration_tick wAlpha = [] ∧
    monitor_agent_health_l70 wAlpha = [Action.putStatus 1 "running"] := by decide

/-- Claim C2, counterexample: on the capture of the claim scenario the
classifier is indeed Stuck, but the orchestrator answers by sending
the keys 1 and Enter, not an AutoAnswer of 2; and because the code
keeps no debounce state, the tick leaves the world unchanged and a
second identical capture repeats exactly the same send instead of
yielding no action; the approval monitor of claude_agent_manager.py
does not fire on this capture at all, since its second required
pattern is the mojibake arrow sequence. -/
theorem c2_counterexample :
    isStuckCapture capConfirm = true ∧
    unstick_agent "proj-eta" capConfirm =
      [Action.sendKeys "proj-eta:0" ["1", "Enter"], Action.sendMessage "proj-eta:0"] ∧
    orchestration_tick wStuck =
      [Action.sendKeys "proj-eta:0" ["1", "Enter"], Action.sendMessage "proj-eta:0"] ∧
    tickStep wStuck = wStuck ∧
    orchestration_tick (tickStep wStuck) = orchestration_tick wStuck ∧
    approval_dialog_detected capConfirm = false := by decide

/-- Claim C2 as amended: every capture containing the proceed question
is classified Stuck and is answered by sending the keys 1 and Enter
plus the guidance message, on every occurrence without any debounce;
the approval monitor of claude_agent_manager.py sends the keys 2 and
Enter whenever its two detection patterns are both present in the
content, likewise on every call without any debounce. -/
theorem c2_amended (s cap content : String)
    (h1 : strContains cap "Do you want to proceed?" = true)
    (h2 : approval_dialog_detected content = true) :
    isStuckCapture cap = true ∧
    unstick_agent s cap =
      [Action.sendKeys (s ++ ":0") ["1", "Enter"], Action.sendMessage (s ++ ":0")] ∧
    monitor_agent_approvals s "Claude-Agent" content =
      [Action.sendKeys (s ++ ":" ++ "Claude-Agent") ["2", "Enter"]] := by
  refine ⟨?_, ?_, ?_⟩
  · simp [isStuckCapture, stuck_indicators, List.any_cons, h1]
  · simp [unstick_agent, h1]
  · simp [monitor_agent_approvals, h2]

/-- Claim C2 witness: the amended statement evaluated on the scenario
capture, and on a content string on which the approval monitor
fires. -/
theorem c2_witness :
    (strContains capConfirm "Do you want to proceed?" = true ∧
     approval_dialog_detected "Do you want to proceed? â¯ 1. Yes" = true) ∧
    (isStuckCapture capConfirm = true ∧
     unstick_agent "proj-eta" capConfirm =
       [Action.sendKeys "proj-eta:0" ["1", "Enter"], Action.sendMessage "proj-eta:0"] ∧
     monitor_agent_approvals "proj-eta" "Claude-Agent" "Do you want to proceed? â¯ 1. Yes" =
       [Action.sendKeys ("proj-eta" ++ ":" ++ "Claude-Agent") ["2", "Enter"]]) :=
  ⟨⟨by decide, by decide⟩,
   c2_amended "proj-eta" capConfirm "Do you want to proceed? â¯ 1. Yes" (by decide) (by decide)⟩

/-- Claim C3, confirmed: any capture containing a dead-table marker
(login, or authentication, or error together with failed, sought in
the lowercased text) is classified Dead and takes the restart branch
of the health monitor, for every project and every world, hence
independently of any prior liveness state: the classifier reads the
capture alone. -/
theorem c3_dead_marker_classifies_dead (w : World) (p : Project) (output : String)
    (hsess : w.sessions.contains (sessionNameOf p) = true)
    (hcap : lookupCapture w (sessionNameOf p) = some output)
    (hdead : deadMarkerHit output = true) :
    classify_capture output = Liveness.dead ∧
    monitorProject_l70 w p =
      [Action.killSession (sessionNameOf p), Action.putStatus p.id "pending"] := by
  constructor
  · simp [classify_capture, hdead]
  · have hmem : sessionNameOf p ∈ w.sessions := by simpa using hsess
    simp [monitorProject_l70, hmem, hcap, hdead, restart_stuck_agent]

/-- Claim C3 witness: the theorem evaluated on a running project whose
capture shows an error-and-failed banner. -/
theorem c3_witness :
    (wDead.sessions.contains (sessionNameOf delta) = true ∧
     lookupCapture wDead (sessionNameOf delta) = some "error: build failed" ∧
     deadMarkerHit "error: build failed" = true) ∧
    (classify_capture "error: build failed" = Liveness.dead ∧
     monitorProject_l70 wDead delta =
       [Action.killSession (sessionNameOf delta), Action.putStatus delta.id "pending"]) :=
  ⟨⟨by decide, by decide, by decide⟩,
   c3_dead_marker_classifies_dead wDead delta "error: build failed"
     (by decide) (by decide) (by decide)⟩

/-- Claim C4, counterexample: the code holds no per-session liveness
bookkeeping at all, so an empty capture is simply not-stuck on every
tick; three consecutive ticks over a world whose session captures
empty text leave the world unchanged and emit no action on any of
them, and in particular no Dead transition occurs on the third tick;
no Unknown classification exists anywhere in the code. -/
theorem c4_counterexample :
    lookupCapture wEmpty "proj-beta" = some "" ∧
    isStuckCapture "" = false ∧
    classify_capture "" = Liveness.healthy ∧
    orchestration_tick wEmpty = [] ∧
    tickStep (tickStep (tickStep wEmpty)) = wEmpty ∧
    orchestration_tick (tickStep (tickStep wEmpty)) = [] := by decide

/-- Claim C4 as amended: a session whose capture is empty is treated as
not stuck; its processing step performs no state-store write, no
session creation and no kill, on the first and on every subsequent
tick, and the capture classifies as healthy rather than Unknown or
Dead (neither of which the code tracks for empty captures). -/
theorem c4_amended (w : World) (s : String)
    (hf : w.failing.contains s = false)
    (hcap : lookupCapture w s = some "") :
    check_agent_activity w s = check_agent_productivity s w.minute ∧
    (check_agent_activity w s).all safeAction = true ∧
    isStuckCapture "" = false ∧
    classify_capture "" = Liveness.healthy := by
  have hstuck : isStuckCapture "" = false := by decide
  have hf2 : s ∉ w.failing := by simpa using hf
  refine ⟨?_, check_agent_activity_safe w s, hstuck, by decide⟩
  simp [check_agent_activity, hf2, check_agent_activity_core, hcap, hstuck]

/-- Claim C4 witness: the amended statement evaluated on the empty
capture world. -/
theorem c4_witness :
    (wEmpty.failing.contains "proj-beta" = false ∧
     lookupCapture wEmpty "proj-beta" = some "") ∧
    (check_agent_activity wEmpty "proj-beta" = check_agent_productivity "proj-beta" wEmpty.minute ∧
     (check_agent_activity wEmpty "proj-beta").all safeAction = true ∧
     isStuckCapture "" = false ∧
     classify_capture "" = Liveness.healthy) :=
  ⟨⟨by decide, by decide⟩, c4_amended wEmpty "proj-beta" (by decide) (by decide)⟩

/-- Claim C5, counterexample: the recovery paths move a Running project
back to Pending, an edge the claim excludes: restart_stuck_agent on a
running project writes pending, and the first monitor_agent_health
definition writes pending for a running project whose session is
missing. -/
theorem c5_counterexample :
    gammaP.status = "running" ∧
    restart_stuck_agent "proj-gamma" gammaP =
      [Action.killSession "proj-gamma", Action.putStatus 3 "pending"] ∧
    monitor_agent_health_l70 wMissing = [Action.putStatus 3 "pending"] := by decide

/-- Claim C5 as amended: the recovery paths (restart_stuck_agent, and
the first monitor_agent_health definition on a missing session) reset
Starting and Running projects to Pending, a Running-to-Pending edge
the claim excludes.  Every other status write stays within the
claimed edges: the shadowed promotion branch writes running, the loop
tick writes only starting (assignment of pending projects), and the
public orchestration_cycle writes only starting and managed, the
latter by deploy_project_managers along the Running-to-Managed edge;
error, stopping and stopped are never written by any of them. -/
theorem c5_amended (w : World) (sname : String) (p : Project) :
    statusesWritten (restart_stuck_agent sname p) = ["pending"] ∧
    (statusesWritten (monitor_agent_health_l70 w)).all
      (fun st => st == "pending" || st == "running") = true ∧
    (statusesWritten (deploy_project_managers w)).all (fun st => st == "managed") = true ∧
    (statusesWritten (orchestration_tick w)).all (fun st => st == "starting") = true ∧
    (statusesWritten (orchestration_cycle w)).all
      (fun st => st == "starting" || st == "managed") = true := by
  refine ⟨rfl, ?_, ?_, ?_, ?_⟩
  · rw [statusesWritten_all]
    exact monitor_l70_statusOk w
  · rw [statusesWritten_all]
    exact deploy_statusOk w
  · rw [statusesWritten_all]
    unfold orchestration_tick
    simp only [List.all_append, Bool.and_eq_true]
    refine ⟨assign_statusOk w, ?_⟩
    refine all_weaken _ _ _ (monitor_l515_safe w) (fun a h => ?_)
    cases a <;> simp_all [safeAction, statusOkA, isPutStatus, isCreate, isKill]
  · rw [statusesWritten_all]
    unfold orchestration_cycle monitor_project_manager_health update_system_health
    simp only [List.all_append, Bool.and_eq_true, List.all_nil, and_true]
    refine ⟨⟨⟨?_, ?_⟩, ?_⟩, ?_⟩
    · refine all_weaken _ _ _ (assign_statusOk w) (fun a h => ?_)
      cases a <;> simp_all [statusOkA]
    · refine all_weaken _ _ _ (deploy_statusOk w) (fun a h => ?_)
      cases a <;> simp_all [statusOkA]
    · refine all_weaken _ _ _ (enable_all_safe w) (fun a h => ?_)
      cases a <;> simp_all [safeAction, statusOkA, isPutStatus, isCreate, isKill]
    · refine all_weaken _ _ _ (monitor_l515_safe w) (fun a h => ?_)
      cases a <;> simp_all [safeAction, statusOkA, isPutStatus, isCreate, isKill]

/-- Claim C6, counterexample: max_retry_attempts is 3, yet across four
full dead-restart-recreate rounds the orchestrator kills and restarts
the session four times and never writes an error status: no retry
counter is consulted and no Reprovision escalation exists. -/
theorem c6_counterexample :
    max_retry_attempts = 3 ∧
    ((roundsTrace 4 wDead).filter isKill).length = 4 ∧
    "error" ∉ statusesWritten (roundsTrace 4 wDead) := by decide

/-- Claim C6 as amended: restart_stuck_agent takes no history and emits
the same kill-plus-pending pair on every invocation, so a Dead
session is restarted without limit; across any number of recovery
rounds from any world, every status written is pending, starting or
running, and error is never written. -/
theorem c6_amended (n : Nat) (w : World) (sname : String) (p : Project) :
    restart_stuck_agent sname p =
      [Action.killSession sname, Action.putStatus p.id "pending"] ∧
    (statusesWritten (roundsTrace n w)).all
      (fun st => st == "pending" || st == "starting" || st == "running") = true ∧
    "error" ∉ statusesWritten (roundsTrace n w) := by
  have hall : (statusesWritten (roundsTrace n w)).all
      (fun st => st == "pending" || st == "starting" || st == "running") = true := by
    rw [statusesWritten_all]
    exact roundsTrace_statusOk n w
  refine ⟨rfl, hall, ?_⟩
  intro hmem
  have h := List.all_eq_true.mp hall "error" hmem
  exact absurd h (by decide)

/-- Claim C7, counterexample: immediately after the restart the project
status is pending, not starting as the claim states; there is no
LivenessState or InterventionRecord bookkeeping in the code to be
reset. -/
theorem c7_counterexample :
    eps.status = "running" ∧
    (stepWorld wEps (restart_stuck_agent (sessionNameOf eps) eps)).projects =
      [{ eps with status := "pending" }] ∧
    "pending" ≠ "starting" := by decide

/-- Claim C7 as amended: the restart resets the project to Pending and
kills its session; the assignment phase of the following tick then
recreates the session and sets the status to starting, so the
round-trip lands on Starting only after that next tick. -/
theorem c7_amended (w : World) (p : Project)
    (h1 : w.projects = [p]) (h2 : w.fetchOk = true)
    (h3 : w.projectRaises.contains p.id = false) :
    (recoverSteps w p).projects = [{ p with status := "starting" }] ∧
    (recoverSteps w p).sessions.contains (sessionNameOf p) = true := by
  obtain ⟨ps, f, ss, lo, cs, fl, pr, m, pa, pc⟩ := w
  dsimp only at h1 h2 h3
  subst h1
  subst h2
  have h3m : p.id ∉ pr := by simpa using h3
  constructor <;>
    simp [recoverSteps, stepWorld, restart_stuck_agent, applyProject, applySession,
      assign_agents_to_pending_projects, create_and_assign_agent, h3m, contains_filter_ne,
      sessionNameOf_with_status, List.contains_cons]

/-- Claim C7 witness: the amended statement evaluated on a running
project whose session shows a login banner. -/
theorem c7_witness :
    (wEps.projects = [eps] ∧ wEps.fetchOk = true ∧
     wEps.projectRaises.contains eps.id = false) ∧
    ((recoverSteps wEps eps).projects = [{ eps with status := "starting" }] ∧
     (recoverSteps wEps eps).sessions.contains (sessionNameOf eps) = true) :=
  ⟨⟨by decide, by decide, by decide⟩, c7_amended wEps eps (by decide) (by decide) (by decide)⟩

/-- Claim C8, counterexample: for a running project whose session is
absent, the first monitor_agent_health definition changes its status
to pending and creates no session in that tick, while the tick of the
running loop (whose monitor phase reads only tmux sessions) does
nothing at all: in neither reading does the tick create a new session
while leaving the status untouched. -/
theorem c8_counterexample :
    gammaP.status = "running" ∧
    wMissing.sessions.contains (sessionNameOf gammaP) = false ∧
    monitor_agent_health_l70 wMissing = [Action.putStatus 3 "pending"] ∧
    (monitor_agent_health_l70 wMissing).all (fun a => !isCreate a) = true ∧
    orchestration_tick wMissing = [] := by decide

/-- Claim C8 as amended: a running project with a missing session is
not recreated during the observing tick: the first-defined monitor
resets its status to pending (and creates nothing), so that the
assignment phase of a later tick recreates the session; the tick the
loop actually runs performs no write and no creation for it. -/
theorem c8_amended (w : World) (p : Project)
    (h1 : w.projects = [p]) (h2 : p.status = "running")
    (h3 : w.sessions.contains (sessionNameOf p) = false) (h4 : w.fetchOk = true) :
    monitor_agent_health_l70 w = [Action.putStatus p.id "pending"] ∧
    (orchestration_tick w).all (fun a => !isPutStatus a && !isCreate a) = true := by
  have h3m : sessionNameOf p ∉ w.sessions := by simpa using h3
  constructor
  · simp [monitor_agent_health_l70, h1, h2, h4, monitorProject_l70, h3m]
  · unfold orchestration_tick
    simp only [List.all_append, Bool.and_eq_true]
    constructor
    · simp [assign_agents_to_pending_projects, h1, h2, h4]
    · refine all_weaken _ _ _ (monitor_l515_safe w) (fun a h => ?_)
      cases a <;> simp_all [safeAction, isPutStatus, isCreate, isKill]

/-- Claim C8 witness: the amended statement evaluated on the
missing-session world. -/
theorem c8_witness :
    (wMissing.projects = [gammaP] ∧ gammaP.status = "running" ∧
     wMissing.sessions.contains (sessionNameOf gammaP) = false ∧ wMissing.fetchOk = true) ∧
    (monitor_agent_health_l70 wMissing = [Action.putStatus gammaP.id "pending"] ∧
     (orchestration_tick wMissing).all (fun a => !isPutStatus a && !isCreate a) = true) :=
  ⟨⟨by decide, by decide, by decide, by decide⟩,
   c8_amended wMissing gammaP (by decide) (by decide) (by decide) (by decide)⟩

/-- Claim C9, counterexample: a failed project-list fetch does not
abort the tick: on a world whose fetch fails while a stuck session
exists, the tick still logs the fetch failure and then runs the whole
monitor phase, sending the unstick keys. -/
theorem c9_counterexample :
    wFetchFail.fetchOk = false ∧
    orchestration_tick wFetchFail =
      [Action.logError "fetch", Action.sendKeys "proj-eta:0" ["1", "Enter"],
       Action.sendMessage "proj-eta:0"] := by decide

/-- Claim C9 as amended: an exception injected into one session is
caught inside check_agent_activity and only logged, the processing of
every other session is unchanged by it, and a failed project-list
fetch aborts only the assignment phase: the monitor phase of the same
tick still runs in full. -/
theorem c9_amended (w : World) (s t : String) (hne : t ≠ s) :
    check_agent_activity { w with failing := s :: w.failing } s = [Action.logError s] ∧
    check_agent_activity { w with failing := s :: w.failing } t = check_agent_activity w t ∧
    orchestration_tick { w with fetchOk := false } =
      Action.logError "fetch" :: monitor_agent_health w := by
  refine ⟨?_, ?_, rfl⟩
  · simp [check_agent_activity, List.contains_cons]
  · have hcore : check_agent_activity_core { w with failing := s :: w.failing } t =
        check_agent_activity_core w t := rfl
    simp [check_agent_activity, List.contains_cons, hne, hcore]

/-- Claim C9 witness: the amended statement evaluated on the stuck
session world. -/
theorem c9_witness :
    ("proj-b" ≠ "proj-a") ∧
    (check_agent_activity { wStuck with failing := "proj-a" :: wStuck.failing } "proj-a" =
       [Action.logError "proj-a"] ∧
     check_agent_activity { wStuck with failing := "proj-a" :: wStuck.failing } "proj-b" =
       check_agent_activity wStuck "proj-b" ∧
     orchestration_tick { wStuck with fetchOk := false } =
       Action.logError "fetch" :: monitor_agent_health wStuck) :=
  ⟨by decide, c9_amended wStuck "proj-a" "proj-b" (by decide)⟩

/-- Claim C10, confirmed: across one tick of the loop body of
run_continuous_orchestration, every state-store write carries the
status starting and targets a project whose fetched status was
pending, and the monitor phase, which is the later
monitor_agent_health definition shadowing the earlier one in the
class body, performs no state-store write at all. -/
theorem c10_loop_writes_only_starting (w : World) :
    (orchestration_tick w).all (fun a => match a with
      | Action.putStatus pid st => st == "starting" && (pendingIds w).contains pid
      | _ => true) = true ∧
    (monitor_agent_health w).all (fun a => !isPutStatus a) = true := by
  have hmon : (monitor_agent_health w).all (fun a => !isPutStatus a) = true := by
    refine all_weaken _ _ _ (monitor_l515_safe w) (fun a h => ?_)
    cases a <;> simp_all [safeAction, isPutStatus, isCreate, isKill]
  refine ⟨?_, hmon⟩
  unfold orchestration_tick
  simp only [List.all_append, Bool.and_eq_true]
  constructor
  · rw [List.all_eq_true]
    intro a ha
    cases a with
    | putStatus pid st =>
      obtain ⟨hst, hpid⟩ := assign_put_mem w _ ha pid st rfl
      subst hst
      show (("starting" == "starting") && (pendingIds w).contains pid) = true
      rw [beq_self_eq_true, Bool.true_and]
      exact contains_of_mem hpid
    | killSession n => rfl
    | createSession n c => rfl
    | sendKeys tg ks => rfl
    | sendMessage tg => rfl
    | logError m => rfl
  · exact all_weaken _ _ _ hmon (fun a h => by cases a <;> simp_all [isPutStatus])

end TmuxOrch
